import Mathlib

/-!
# Heap recorder (ext/ddtrace_profiling_native_extension/heap_recorder.c)

A shallow embedding of the heap recorder of the profiling native extension.
The C functions mutate a heap-allocated `struct heap_recorder` through a
pointer; here every function takes the recorder value before the call and
gives back the recorder value after it.  `rb_raise` leaves the function
through a non-local jump: the recorder keeps whatever was written before the
jump and the exception is reported next to it.

Machine values: `VALUE` (an unsigned word holding an object handle) and
`unsigned int` are natural numbers.  The functions only copy and compare
them, so no arithmetic can wrap.  `Qnil` is a constant of the Ruby headers,
which are not part of the extension: it is a parameter of every function that
mentions it.
-/

set_option linter.unusedVariables false

namespace HeapRecorder

/-! ## Data model -/

/-- Ruby object handle (`VALUE`). -/
abbrev VALUE := Nat

/-- Modelled from the spec: `ddog_prof_Slice_Location` is declared by libdatadog,
not by this repository; the spec describes it as an opaque ordered sequence of
frame descriptors. -/
abbrev ddog_prof_Slice_Location := List String

/-- Sampling data kept per object.  The declaration lives in `heap_recorder.h`;
the only field the source file touches is `weight` (an `unsigned int`). -/
structure live_object_data where
  weight : Nat
  deriving DecidableEq, Repr

/-- The `{0}` initialiser of `live_object_data`. -/
def live_object_data.zeroed : live_object_data := { weight := 0 }

/-- Data passed to `start_heap_allocation_recording`, kept for
`end_heap_allocation_recording`.  `obj != Qnil` flags the struct as holding a
valid partial heap recording. -/
structure partial_heap_recording where
  obj : VALUE
  object_data : live_object_data
  deriving DecidableEq, Repr

/-- The recorder: only the recording that was started but not yet ended. -/
structure heap_recorder where
  active_recording : partial_heap_recording
  deriving DecidableEq, Repr

/-- Modelled from the spec: the argument type of the iteration callback is
declared in `heap_recorder.h`, which is missing; the spec describes one entry of
the live set as an object identity with its weight and its locations. -/
structure heap_recorder_iteration_data where
  obj : VALUE
  object_data : live_object_data
  locations : ddog_prof_Slice_Location
  deriving DecidableEq, Repr

/-- Ruby exceptions the recorder raises: class and message of `rb_raise`. -/
inductive RubyException where
  | rb_eRuntimeError (msg : String)
  deriving DecidableEq, Repr

/-- What a call leaves behind: the recorder after the call, the exception that
ended the call (if any), and the entries the call handed out to its caller. -/
structure Outcome where
  recorder : heap_recorder
  raised : Option RubyException
  emitted : List heap_recorder_iteration_data
  deriving DecidableEq, Repr

/-! ## Operations -/

/-- `heap_recorder_new`: a recorder whose slot holds `Qnil` and zeroed data. -/
def heap_recorder_new (Qnil : VALUE) : heap_recorder :=
  { active_recording := { obj := Qnil, object_data := live_object_data.zeroed } }

/-- `start_heap_allocation_recording`: the slot is overwritten with a compound
literal holding the new object and the weight. -/
def start_heap_allocation_recording (heap_recorder : heap_recorder) (new_obj : VALUE)
    (weight : Nat) : HeapRecorder.heap_recorder :=
  { heap_recorder with
    active_recording := { obj := new_obj, object_data := { weight := weight } } }

/-- The exception of `end_heap_allocation_recording`. -/
def not_started : RubyException :=
  RubyException.rb_eRuntimeError "Ended a heap recording that was not started"

/-- `end_heap_allocation_recording`: raises when the slot holds `Qnil`, otherwise
writes `Qnil` into the slot's `obj`.  The rest of the body is a TODO comment:
`locations` is not used and nothing is handed out. -/
def end_heap_allocation_recording (Qnil : VALUE) (heap_recorder : heap_recorder)
    (locations : ddog_prof_Slice_Location) : Outcome :=
  let active_recording := heap_recorder.active_recording
  let new_obj := active_recording.obj
  if new_obj = Qnil then
    { recorder := heap_recorder, raised := some not_started, emitted := [] }
  else
    { recorder := { heap_recorder with
                    active_recording := { active_recording with obj := Qnil } },
      raised := none, emitted := [] }

/-- `record_heap_free`: the body is a TODO comment. -/
def record_heap_free (heap_recorder : heap_recorder) (obj : VALUE) : Outcome :=
  { recorder := heap_recorder, raised := none, emitted := [] }

/-- `heap_recorder_flush`: the body is a TODO comment. -/
def heap_recorder_flush (heap_recorder : heap_recorder) : Outcome :=
  { recorder := heap_recorder, raised := none, emitted := [] }

/-- `heap_recorder_for_each_live_object`: the body is a TODO comment, so the
callback is applied to no entry.  The callback updates what `extra_arg` points
to; the result is the recorder and the final value of that argument. -/
def heap_recorder_for_each_live_object {σ : Type} (heap_recorder : heap_recorder)
    (for_each_callback : heap_recorder_iteration_data → σ → σ)
    (for_each_callback_extra_arg : σ) (with_gvl : Bool) :
    HeapRecorder.heap_recorder × σ :=
  (heap_recorder, for_each_callback_extra_arg)

/-! ## Observations -/

/-- The slot is occupied: `obj != Qnil`. -/
def occupied (Qnil : VALUE) (r : heap_recorder) : Prop :=
  r.active_recording.obj ≠ Qnil

instance (Qnil : VALUE) (r : heap_recorder) : Decidable (occupied Qnil r) := by
  unfold occupied; infer_instance

/-- The live set of a recorder: the entries an iteration over it visits, in
order, gathered by a callback that appends each visited entry. -/
def live_set (r : heap_recorder) : List heap_recorder_iteration_data :=
  (heap_recorder_for_each_live_object r (fun entry seen => seen ++ [entry]) [] true).2

/-- Flushing `n` times in a row. -/
def flush_times : Nat → heap_recorder → heap_recorder
  | 0, r => r
  | n + 1, r => flush_times n (heap_recorder_flush r).recorder

/-! ## Call sequences -/

/-- One call on a recorder.  The iteration callback works on a numeric context. -/
inductive Op where
  | start_recording (new_obj : VALUE) (weight : Nat)
  | end_recording (locations : ddog_prof_Slice_Location)
  | record_free (obj : VALUE)
  | flush
  | for_each_live_object (for_each_callback : heap_recorder_iteration_data → Nat → Nat)
      (for_each_callback_extra_arg : Nat) (with_gvl : Bool)

/-- The call is a start or an end of a recording. -/
def Op.is_recording : Op → Bool
  | Op.start_recording _ _ => true
  | Op.end_recording _ => true
  | _ => false

/-- The call is a start of a recording. -/
def Op.is_start : Op → Bool
  | Op.start_recording _ _ => true
  | _ => false

/-- The call is a start of a recording for an object other than `Qnil`. -/
def Op.is_valid_start (Qnil : VALUE) : Op → Bool
  | Op.start_recording new_obj _ => decide (new_obj ≠ Qnil)
  | _ => false

/-- The recorder after one call; an exception of the call is dropped, the
recorder it leaves behind is kept. -/
def apply_op (Qnil : VALUE) (r : heap_recorder) : Op → heap_recorder
  | Op.start_recording new_obj weight => start_heap_allocation_recording r new_obj weight
  | Op.end_recording locations => (end_heap_allocation_recording Qnil r locations).recorder
  | Op.record_free obj => (record_heap_free r obj).recorder
  | Op.flush => (heap_recorder_flush r).recorder
  | Op.for_each_live_object cb extra with_gvl =>
      (heap_recorder_for_each_live_object r cb extra with_gvl).1

/-- The recorder after a sequence of calls, first call first. -/
def run_from (Qnil : VALUE) (r : heap_recorder) (ops : List Op) : heap_recorder :=
  ops.foldl (apply_op Qnil) r

/-- The recorder after a sequence of calls on a freshly created recorder. -/
def run (Qnil : VALUE) (ops : List Op) : heap_recorder :=
  run_from Qnil (heap_recorder_new Qnil) ops

/-- The most recent start or end call of a sequence, if there is one. -/
def most_recent_recording_op (ops : List Op) : Option Op :=
  ops.reverse.find? Op.is_recording

/-- The most recent start or end call of the sequence is a start. -/
def last_recording_op_is_start (ops : List Op) : Bool :=
  match most_recent_recording_op ops with
  | some op => op.is_start
  | none => false

/-- The most recent start or end call of the sequence is a start for an object
other than `Qnil`. -/
def last_recording_op_is_valid_start (Qnil : VALUE) (ops : List Op) : Bool :=
  match most_recent_recording_op ops with
  | some op => op.is_valid_start Qnil
  | none => false

/-! ## Basic facts -/

theorem live_set_eq_nil (r : heap_recorder) : live_set r = [] := rfl

theorem end_recorder_eq (Qnil : VALUE) (r : heap_recorder) (l : ddog_prof_Slice_Location) :
    (end_heap_allocation_recording Qnil r l).recorder =
      { active_recording := { obj := Qnil, object_data := r.active_recording.object_data } } := by
  unfold end_heap_allocation_recording
  by_cases h : r.active_recording.obj = Qnil
  · simp only [h, if_true]
    cases r with
    | mk a => cases a with
      | mk o d => simp only at h; subst h; rfl
  · simp only [h, if_false]

theorem end_raised_of_eq (Qnil : VALUE) (r : heap_recorder) (l : ddog_prof_Slice_Location)
    (h : r.active_recording.obj = Qnil) :
    end_heap_allocation_recording Qnil r l =
      { recorder := r, raised := some not_started, emitted := [] } := by
  simp [end_heap_allocation_recording, h]

theorem end_ok_of_ne (Qnil : VALUE) (r : heap_recorder) (l : ddog_prof_Slice_Location)
    (h : r.active_recording.obj ≠ Qnil) :
    (end_heap_allocation_recording Qnil r l).raised = none := by
  simp [end_heap_allocation_recording, h]

theorem run_from_append_singleton (Qnil : VALUE) (r : heap_recorder) (ops : List Op)
    (op : Op) : run_from Qnil r (ops ++ [op]) = apply_op Qnil (run_from Qnil r ops) op := by
  simp [run_from, List.foldl_append]

theorem most_recent_append_singleton (ops : List Op) (op : Op) :
    most_recent_recording_op (ops ++ [op]) =
      if op.is_recording then some op else most_recent_recording_op ops := by
  unfold most_recent_recording_op
  rw [List.reverse_append, List.reverse_singleton, List.singleton_append, List.find?_cons]
  cases op.is_recording <;> rfl

theorem run_from_of_no_recording_op (Qnil : VALUE) (ops : List Op) (r : heap_recorder)
    (h : ∀ op ∈ ops, op.is_recording = false) : run_from Qnil r ops = r := by
  induction ops generalizing r with
  | nil => rfl
  | cons op rest ih =>
    have hop : op.is_recording = false := h op (List.mem_cons_self op rest)
    have hrest : ∀ x ∈ rest, x.is_recording = false :=
      fun x hx => h x (List.mem_cons_of_mem op hx)
    have hstep : apply_op Qnil r op = r := by
      cases op with
      | start_recording o w => simp [Op.is_recording] at hop
      | end_recording l => simp [Op.is_recording] at hop
      | record_free o => rfl
      | flush => rfl
      | for_each_live_object cb x g => rfl
    show run_from Qnil (apply_op Qnil r op) rest = r
    rw [hstep]
    exact ih r hrest

/-! ## Claims -/

/-- C1: `end_heap_allocation_recording` ends with the RuntimeError "Ended a heap
recording that was not started" exactly when the slot holds `Qnil` at the time of
the call, and returns without any exception exactly when the slot is occupied. -/
theorem end_recording_fails_iff_unoccupied (Qnil : VALUE) (r : heap_recorder)
    (locations : ddog_prof_Slice_Location) :
    ((end_heap_allocation_recording Qnil r locations).raised =
        some (RubyException.rb_eRuntimeError "Ended a heap recording that was not started")
      ↔ r.active_recording.obj = Qnil) ∧
    ((end_heap_allocation_recording Qnil r locations).raised = none
      ↔ occupied Qnil r) := by
  unfold occupied
  by_cases h : r.active_recording.obj = Qnil
  · simp [end_heap_allocation_recording, h, not_started]
  · simp [end_heap_allocation_recording, h]

/-- C2: after `end_heap_allocation_recording`, whether it returned or raised, the
slot holds `Qnil`, that is, the slot is unoccupied. -/
theorem end_recording_leaves_slot_unoccupied (Qnil : VALUE) (r : heap_recorder)
    (locations : ddog_prof_Slice_Location) :
    (end_heap_allocation_recording Qnil r locations).recorder.active_recording.obj = Qnil ∧
    ¬ occupied Qnil (end_heap_allocation_recording Qnil r locations).recorder := by
  unfold occupied
  rw [end_recorder_eq]
  simp

/-- C3 (as stated, refuted): with `Qnil = 8`, starting a recording for the object
`8` on a fresh recorder does not leave the slot occupied, although the slot holds
the given object and the given weight. -/
theorem start_recording_nil_not_occupied :
    ¬ (occupied 8 (start_heap_allocation_recording (heap_recorder_new 8) 8 5) ∧
       (start_heap_allocation_recording (heap_recorder_new 8) 8 5).active_recording.obj = 8 ∧
       (start_heap_allocation_recording
          (heap_recorder_new 8) 8 5).active_recording.object_data.weight = 5) := by
  decide

/-- C3 (amended): for every prior recorder, object and weight,
`start_heap_allocation_recording` leaves the slot holding exactly the given object
and the given weight; the slot is occupied (`obj != Qnil`) exactly when the given
object is not `Qnil`. -/
theorem start_recording_slot (Qnil : VALUE) (r : heap_recorder) (new_obj : VALUE)
    (weight : Nat) :
    (start_heap_allocation_recording r new_obj weight).active_recording =
        { obj := new_obj, object_data := { weight := weight } } ∧
    (occupied Qnil (start_heap_allocation_recording r new_obj weight) ↔ new_obj ≠ Qnil) := by
  constructor
  · rfl
  · exact Iff.rfl

/-- C4 (as stated, refuted): with `Qnil = 8`, after starting a recording for the
object `1000` with weight `5` on a fresh recorder and ending it with locations
`["f1", "f2"]`, the live set holds no entry for `1000` with that weight and those
locations. -/
theorem start_end_not_in_live_set :
    ¬ ∃ e ∈ live_set (end_heap_allocation_recording 8
          (start_heap_allocation_recording (heap_recorder_new 8) 1000 5)
          ["f1", "f2"]).recorder,
        e.obj = 1000 ∧ e.object_data.weight = 5 ∧ e.locations = ["f1", "f2"] := by
  simp [live_set_eq_nil]

/-- C4 (amended): for every recorder, object, weight and locations, after
`start_heap_allocation_recording` followed by `end_heap_allocation_recording` the
live set is empty, nothing was handed out, and the recorder is the one whose slot
holds `Qnil` and the given weight, whatever the locations were. -/
theorem start_end_commits_nothing (Qnil : VALUE) (r : heap_recorder) (o : VALUE) (w : Nat)
    (l : ddog_prof_Slice_Location) :
    live_set (end_heap_allocation_recording Qnil
        (start_heap_allocation_recording r o w) l).recorder = [] ∧
    (end_heap_allocation_recording Qnil
        (start_heap_allocation_recording r o w) l).emitted = [] ∧
    (end_heap_allocation_recording Qnil (start_heap_allocation_recording r o w) l).recorder =
      { active_recording := { obj := Qnil, object_data := { weight := w } } } := by
  refine ⟨rfl, ?_, ?_⟩
  · unfold end_heap_allocation_recording
    by_cases h : o = Qnil <;> simp [start_heap_allocation_recording, h]
  · rw [end_recorder_eq]
    rfl

/-- C5: for every recorder and every object with no entry in the live set,
`record_heap_free` raises nothing, hands nothing out and leaves the recorder
(slot and live set) as it was. -/
theorem record_free_absent_noop (r : heap_recorder) (o : VALUE)
    (h : ∀ e ∈ live_set r, e.obj ≠ o) :
    (record_heap_free r o).raised = none ∧
    (record_heap_free r o).recorder = r ∧
    live_set (record_heap_free r o).recorder = live_set r := by
  exact ⟨rfl, rfl, rfl⟩

/-- Witness for C5: the object `1000` is absent from the live set of a recorder
with a started recording, and freeing it changes nothing. -/
theorem record_free_absent_noop_witness :
    (∀ e ∈ live_set (start_heap_allocation_recording (heap_recorder_new 8) 2000 3),
        e.obj ≠ 1000) ∧
    ((record_heap_free (start_heap_allocation_recording (heap_recorder_new 8) 2000 3)
        1000).raised = none ∧
     (record_heap_free (start_heap_allocation_recording (heap_recorder_new 8) 2000 3)
        1000).recorder = start_heap_allocation_recording (heap_recorder_new 8) 2000 3 ∧
     live_set (record_heap_free (start_heap_allocation_recording (heap_recorder_new 8) 2000 3)
        1000).recorder =
       live_set (start_heap_allocation_recording (heap_recorder_new 8) 2000 3)) :=
  ⟨by simp [live_set_eq_nil],
   record_free_absent_noop (start_heap_allocation_recording (heap_recorder_new 8) 2000 3) 1000
     (by simp [live_set_eq_nil])⟩

/-- C6 (as stated, refuted): with `Qnil = 8`, after start(1000, 5) and
end(["f1", "f2"]) on a fresh recorder a flush does not yield the single entry
`1000 : (5, ["f1", "f2"])`. -/
theorem flush_after_start_end_not_entry :
    (heap_recorder_flush (end_heap_allocation_recording 8
        (start_heap_allocation_recording (heap_recorder_new 8) 1000 5)
        ["f1", "f2"]).recorder).emitted ≠
      [{ obj := 1000, object_data := { weight := 5 }, locations := ["f1", "f2"] }] := by
  decide

/-- C6 (amended): `record_heap_free` removes no entry other than the one of its
argument: it leaves the whole recorder, live set included, as it was.  After
start(A, w) and end(l) a flush yields the empty set, and after a following
`record_heap_free` of A a flush yields the empty set again. -/
theorem record_free_keeps_state_flush_empty (Qnil : VALUE) (r : heap_recorder)
    (A : VALUE) (w : Nat) (l : ddog_prof_Slice_Location) :
    (record_heap_free r A).recorder = r ∧
    live_set (record_heap_free r A).recorder = live_set r ∧
    (heap_recorder_flush (end_heap_allocation_recording Qnil
        (start_heap_allocation_recording r A w) l).recorder).emitted = [] ∧
    (heap_recorder_flush (record_heap_free
        (heap_recorder_flush (end_heap_allocation_recording Qnil
          (start_heap_allocation_recording r A w) l).recorder).recorder A).recorder).emitted
      = [] := by
  exact ⟨rfl, rfl, rfl, rfl⟩

/-- C7: `heap_recorder_flush` never changes the live set: the entries (identities
and data) present after a flush are those present before it, the recorder itself
is unchanged, and flushing any number of times in a row leaves it unchanged. -/
theorem flush_keeps_live_set (r : heap_recorder) (n : Nat) :
    live_set (heap_recorder_flush r).recorder = live_set r ∧
    (heap_recorder_flush r).recorder = r ∧
    (heap_recorder_flush r).raised = none ∧
    flush_times n r = r := by
  refine ⟨rfl, rfl, rfl, ?_⟩
  induction n with
  | zero => rfl
  | succ k ih => exact ih

/-- C8 (as stated, refuted): with `Qnil = 8`, after start(1000, 1), start(2000, 2)
and end(["f1"]) on a fresh recorder, no data of the object `2000` has been
committed: the live set has no entry for it. -/
theorem double_start_end_commits_no_entry :
    ¬ ∃ e ∈ live_set (end_heap_allocation_recording 8
          (start_heap_allocation_recording
            (start_heap_allocation_recording (heap_recorder_new 8) 1000 1) 2000 2)
          ["f1"]).recorder,
        e.obj = 2000 := by
  simp [live_set_eq_nil]

/-- C8 (amended): `start_heap_allocation_recording` does not depend on the prior
state: from any two recorders it produces the same slot for the same object and
weight.  After start(A, 1) and start(B, 2) the slot holds B and weight 2 only, and
the following `end_heap_allocation_recording` behaves exactly as if start(A, 1) had
never been called, so the recording of A is discarded; it commits nothing, the live
set stays empty. -/
theorem start_recording_ignores_prior_state (Qnil : VALUE) (r1 r2 : heap_recorder)
    (A B : VALUE) (w : Nat) (l : ddog_prof_Slice_Location) :
    (start_heap_allocation_recording r1 B w).active_recording =
      (start_heap_allocation_recording r2 B w).active_recording ∧
    (start_heap_allocation_recording
        (start_heap_allocation_recording r1 A 1) B 2).active_recording =
      { obj := B, object_data := { weight := 2 } } ∧
    end_heap_allocation_recording Qnil
        (start_heap_allocation_recording (start_heap_allocation_recording r1 A 1) B 2) l =
      end_heap_allocation_recording Qnil (start_heap_allocation_recording r1 B 2) l ∧
    live_set (end_heap_allocation_recording Qnil
        (start_heap_allocation_recording
          (start_heap_allocation_recording r1 A 1) B 2) l).recorder = [] := by
  exact ⟨rfl, rfl, rfl, rfl⟩

/-- C9 (as stated, refuted): with `Qnil = 8`, an end on a fresh recorder raises and
leaves the recorder as it was, but the following pair start(8, 5), end(["f1"]) does
not complete without exception: its end raises again. -/
theorem failed_end_then_nil_pair_fails :
    ¬ ((end_heap_allocation_recording 8 (heap_recorder_new 8) []).raised = some not_started ∧
       (end_heap_allocation_recording 8 (heap_recorder_new 8) []).recorder =
          heap_recorder_new 8 ∧
       (end_heap_allocation_recording 8
          (start_heap_allocation_recording
            (end_heap_allocation_recording 8 (heap_recorder_new 8) []).recorder 8 5)
          ["f1"]).raised = none) := by
  decide

/-- C9 (amended): when the slot is unoccupied, `end_heap_allocation_recording`
raises the RuntimeError and leaves the recorder as it was; a following pair of a
start for an object other than `Qnil` and an end completes without any exception. -/
theorem failed_end_keeps_recorder_usable (Qnil : VALUE) (r : heap_recorder)
    (l0 : ddog_prof_Slice_Location) (o : VALUE) (w : Nat) (l : ddog_prof_Slice_Location)
    (hr : ¬ occupied Qnil r) (ho : o ≠ Qnil) :
    (end_heap_allocation_recording Qnil r l0).raised = some not_started ∧
    (end_heap_allocation_recording Qnil r l0).recorder = r ∧
    (end_heap_allocation_recording Qnil
        (start_heap_allocation_recording
          (end_heap_allocation_recording Qnil r l0).recorder o w) l).raised = none := by
  have hq : r.active_recording.obj = Qnil := by
    unfold occupied at hr
    exact not_not.mp hr
  rw [end_raised_of_eq Qnil r l0 hq]
  refine ⟨rfl, rfl, ?_⟩
  exact end_ok_of_ne Qnil _ l ho

/-- Witness for C9 (amended): with `Qnil = 8`, ending on a fresh recorder raises and changes
nothing, and the pair start(1000, 5), end(["f1", "f2"]) then completes. -/
theorem failed_end_keeps_recorder_usable_witness :
    (¬ occupied 8 (heap_recorder_new 8) ∧ (1000 : VALUE) ≠ 8) ∧
    ((end_heap_allocation_recording 8 (heap_recorder_new 8) []).raised = some not_started ∧
     (end_heap_allocation_recording 8 (heap_recorder_new 8) []).recorder =
        heap_recorder_new 8 ∧
     (end_heap_allocation_recording 8
        (start_heap_allocation_recording
          (end_heap_allocation_recording 8 (heap_recorder_new 8) []).recorder 1000 5)
        ["f1", "f2"]).raised = none) :=
  ⟨⟨by decide, by decide⟩,
   failed_end_keeps_recorder_usable 8 (heap_recorder_new 8) [] 1000 5 ["f1", "f2"]
     (by decide) (by decide)⟩

/-- C10: `heap_recorder_new` gives a recorder with an empty live set and an
unoccupied slot (`obj` is `Qnil`, the object data is zeroed), and
`end_heap_allocation_recording` called directly on it raises the RuntimeError
"Ended a heap recording that was not started". -/
theorem new_recorder_empty_and_unoccupied (Qnil : VALUE)
    (locations : ddog_prof_Slice_Location) :
    live_set (heap_recorder_new Qnil) = [] ∧
    (heap_recorder_new Qnil).active_recording.obj = Qnil ∧
    (heap_recorder_new Qnil).active_recording.object_data.weight = 0 ∧
    ¬ occupied Qnil (heap_recorder_new Qnil) ∧
    (end_heap_allocation_recording Qnil (heap_recorder_new Qnil) locations).raised =
      some (RubyException.rb_eRuntimeError "Ended a heap recording that was not started") := by
  refine ⟨rfl, rfl, rfl, ?_, ?_⟩
  · simp [occupied, heap_recorder_new]
  · simp [end_heap_allocation_recording, heap_recorder_new, not_started]

/-- C11 (as stated, refuted): with `Qnil = 8`, after start(1000, 5) and
end(["f1", "f2"]) on a fresh recorder, an iteration with a callback that gathers
what it is given is not invoked for an entry of the object `1000`. -/
theorem for_each_after_start_end_skips_object :
    ¬ ∃ e ∈ (heap_recorder_for_each_live_object
          (end_heap_allocation_recording 8
            (start_heap_allocation_recording (heap_recorder_new 8) 1000 5)
            ["f1", "f2"]).recorder
          (fun entry seen => seen ++ [entry]) [] false).2,
        e.obj = 1000 := by
  simp [heap_recorder_for_each_live_object]

/-- C11 (amended): for every recorder, callback, context and flag,
`heap_recorder_for_each_live_object` invokes the callback for no entry: it gives
back the context and the recorder as they were, so no entry absent from the table
is visited; in particular after start(o, w) and end(l) the callback is invoked
neither for an entry of o nor for any other. -/
theorem for_each_invokes_no_callback {σ : Type} (Qnil : VALUE) (r : heap_recorder)
    (for_each_callback : heap_recorder_iteration_data → σ → σ) (extra_arg : σ)
    (with_gvl : Bool) (o : VALUE) (w : Nat) (l : ddog_prof_Slice_Location) :
    heap_recorder_for_each_live_object r for_each_callback extra_arg with_gvl =
      (r, extra_arg) ∧
    (heap_recorder_for_each_live_object r (fun _ n => n + 1) 0 with_gvl).2 = 0 ∧
    heap_recorder_for_each_live_object
        (end_heap_allocation_recording Qnil (start_heap_allocation_recording r o w) l).recorder
        for_each_callback extra_arg with_gvl =
      ((end_heap_allocation_recording Qnil
          (start_heap_allocation_recording r o w) l).recorder, extra_arg) := by
  exact ⟨rfl, rfl, rfl⟩

/-- C12 (as stated, refuted): with `Qnil = 8`, after the single call start(8, 5)
on a fresh recorder the most recent start or end call is a start, yet the slot is
not occupied. -/
theorem last_start_nil_slot_unoccupied :
    ¬ (occupied 8 (run 8 [Op.start_recording 8 5]) ↔
        last_recording_op_is_start [Op.start_recording 8 5] = true) := by
  decide

/-- C12 (amended): after every finite sequence of start, end, free, flush and
iteration calls on a freshly created recorder, the slot is occupied exactly when
the most recent start or end call of the sequence is a start for an object other
than `Qnil`, and unoccupied otherwise. -/
theorem slot_occupied_iff_last_valid_start (Qnil : VALUE) (ops : List Op) :
    occupied Qnil (run Qnil ops) ↔ last_recording_op_is_valid_start Qnil ops = true := by
  induction ops using List.reverseRecOn with
  | nil =>
    simp [run, run_from, occupied, heap_recorder_new, last_recording_op_is_valid_start,
      most_recent_recording_op]
  | append_singleton ops op ih =>
    unfold run at ih ⊢
    unfold last_recording_op_is_valid_start at ih ⊢
    rw [run_from_append_singleton, most_recent_append_singleton]
    cases op with
    | start_recording o w =>
      simp [Op.is_recording, Op.is_valid_start, apply_op, occupied,
        start_heap_allocation_recording]
    | end_recording l =>
      have h := end_recorder_eq Qnil (run_from Qnil (heap_recorder_new Qnil) ops) l
      simp [Op.is_recording, Op.is_valid_start, apply_op, occupied, h]
    | record_free o => exact ih
    | flush => exact ih
    | for_each_live_object cb x g => exact ih

/-- C13: `start_heap_allocation_recording` called with `Qnil` and any weight leaves
the slot unoccupied and the immediately following `end_heap_allocation_recording`
raises the RuntimeError "Ended a heap recording that was not started"; a start/end
pair returns without exception exactly for the objects other than `Qnil`. -/
theorem start_nil_then_end_fails (Qnil : VALUE) (r : heap_recorder) (o : VALUE) (w : Nat)
    (l : ddog_prof_Slice_Location) :
    ¬ occupied Qnil (start_heap_allocation_recording r Qnil w) ∧
    (end_heap_allocation_recording Qnil (start_heap_allocation_recording r Qnil w) l).raised =
      some (RubyException.rb_eRuntimeError "Ended a heap recording that was not started") ∧
    ((end_heap_allocation_recording Qnil (start_heap_allocation_recording r o w) l).raised =
      none ↔ o ≠ Qnil) := by
  refine ⟨?_, ?_, ?_⟩
  · simp [occupied, start_heap_allocation_recording]
  · simp [end_heap_allocation_recording, start_heap_allocation_recording, not_started]
  · by_cases h : o = Qnil <;>
      simp [end_heap_allocation_recording, start_heap_allocation_recording, h]

/-- C14: `record_heap_free`, `heap_recorder_flush` and
`heap_recorder_for_each_live_object` leave the slot as it is; for every object
other than `Qnil` and every weight, a start followed by any finite sequence of free
(for any objects), flush and iteration calls leaves the slot holding that object
and that weight, and the following `end_heap_allocation_recording` returns without
exception. -/
theorem slot_kept_by_free_flush_for_each (Qnil : VALUE) (r : heap_recorder) (o : VALUE)
    (w : Nat) (ops : List Op) (l : ddog_prof_Slice_Location) (x : VALUE)
    (cb : heap_recorder_iteration_data → Nat → Nat) (n : Nat) (g : Bool)
    (ho : o ≠ Qnil) (hops : ∀ op ∈ ops, op.is_recording = false) :
    (record_heap_free r x).recorder.active_recording = r.active_recording ∧
    (heap_recorder_flush r).recorder.active_recording = r.active_recording ∧
    (heap_recorder_for_each_live_object r cb n g).1.active_recording = r.active_recording ∧
    (run_from Qnil (start_heap_allocation_recording r o w) ops).active_recording =
      { obj := o, object_data := { weight := w } } ∧
    (end_heap_allocation_recording Qnil
      (run_from Qnil (start_heap_allocation_recording r o w) ops) l).raised = none := by
  rw [run_from_of_no_recording_op Qnil ops _ hops]
  exact ⟨rfl, rfl, rfl, rfl, end_ok_of_ne Qnil _ l ho⟩

/-- Witness for C14: with `Qnil = 8`, start(1000, 5) followed by a free of `1000`, a
flush, an iteration and a free of `2000` keeps the slot, and the end returns. -/
theorem slot_kept_by_free_flush_for_each_witness :
    ((1000 : VALUE) ≠ 8 ∧
      ∀ op ∈ [Op.record_free 1000, Op.flush,
          Op.for_each_live_object (fun _ k => k + 1) 0 false, Op.record_free 2000],
        op.is_recording = false) ∧
    (run_from 8 (start_heap_allocation_recording (heap_recorder_new 8) 1000 5)
        [Op.record_free 1000, Op.flush,
          Op.for_each_live_object (fun _ k => k + 1) 0 false,
          Op.record_free 2000]).active_recording =
      { obj := 1000, object_data := { weight := 5 } } ∧
    (end_heap_allocation_recording 8
      (run_from 8 (start_heap_allocation_recording (heap_recorder_new 8) 1000 5)
        [Op.record_free 1000, Op.flush,
          Op.for_each_live_object (fun _ k => k + 1) 0 false,
          Op.record_free 2000]) ["f1"]).raised = none :=
  ⟨⟨by decide, by simp [Op.is_recording]⟩,
   (slot_kept_by_free_flush_for_each 8 (heap_recorder_new 8) 1000 5
      [Op.record_free 1000, Op.flush,
        Op.for_each_live_object (fun _ k => k + 1) 0 false, Op.record_free 2000]
      ["f1"] 1000 (fun _ k => k + 1) 0 false (by decide) (by simp [Op.is_recording])).2.2.2⟩

/-- C15: of two consecutive `end_heap_allocation_recording` calls the second always
raises the RuntimeError, whatever the recorder and the two locations arguments;
an end changes nothing but the slot's `obj`, which becomes `Qnil`, so after a start
and an end the stored weight is the one the start wrote. -/
theorem second_end_fails_weight_kept (Qnil : VALUE) (r : heap_recorder)
    (l1 l2 : ddog_prof_Slice_Location) (o : VALUE) (w : Nat) :
    (end_heap_allocation_recording Qnil
        (end_heap_allocation_recording Qnil r l1).recorder l2).raised =
      some (RubyException.rb_eRuntimeError "Ended a heap recording that was not started") ∧
    (end_heap_allocation_recording Qnil r l1).recorder =
      { r with active_recording := { r.active_recording with obj := Qnil } } ∧
    (end_heap_allocation_recording Qnil r l1).recorder.active_recording.object_data =
      r.active_recording.object_data ∧
    (end_heap_allocation_recording Qnil
        (start_heap_allocation_recording r o w) l1).recorder.active_recording.object_data.weight
      = w := by
  have h := end_recorder_eq Qnil r l1
  have hs := end_recorder_eq Qnil (start_heap_allocation_recording r o w) l1
  refine ⟨?_, ?_, ?_, ?_⟩
  · rw [end_raised_of_eq Qnil _ l2 (by rw [h])]
    rfl
  · rw [h]
  · rw [h]
  · rw [hs]
    rfl

end HeapRecorder
